import Mathlib

/-!
Shallow embedding of the hyperkit VM driver
(pkg/minikube/drivers/hyperkit/driver.go) and proofs about its lifecycle
operations.  External OS collaborators (the process table, the pid file,
the hypervisor library, the DHCP lease lookup) are modelled as explicit
environment records; the driver functions are translated line by line
from the Go source.
-/

set_option linter.unusedVariables false

namespace Hyperkit

/-- The libmachine host states used by the driver. -/
inductive MachineState where
  | running
  | stopped
  | error
  deriving DecidableEq, Repr

/-- The Driver struct: the embedded BaseDriver fields used by this file
(IPAddress, MachineName, SSHUser, StorePath) flattened together with the
hyperkit-specific configuration fields. -/
structure Driver where
  ipAddress : String
  machineName : String
  sshUser : String
  storePath : String
  boot2DockerURL : String
  diskSize : Int
  cpu : Int
  memory : Int
  cmdline : String
  deriving DecidableEq, Repr

/-- NewDriver from the source: it builds a BaseDriver with only SSHUser
set to "docker"; the hostName and storePath arguments are not used. -/
def NewDriver (hostName storePath : String) : Driver :=
  ⟨"", "", "docker", "", "", 0, 0, 0, ""⟩

/-- DriverName returns the name of the driver. -/
def DriverName (d : Driver) : String := "hyperkit"

/-- A configuration flag as exposed to the cluster-management caller. -/
structure McnFlag where
  flagName : String
  deriving DecidableEq, Repr

/-- GetCreateFlags from the source: the body is `return nil`. -/
def GetCreateFlags (d : Driver) : List McnFlag := []

/-- ResolveStorePath from the embedded BaseDriver:
filepath.Join(StorePath, "machines", MachineName, file); Join drops a
"." component. -/
def Driver.resolveStorePath (d : Driver) (file : String) : String :=
  if file = "." then d.storePath ++ "/machines/" ++ d.machineName
  else d.storePath ++ "/machines/" ++ d.machineName ++ "/" ++ file

/-- Modelled from the spec: the base driver accessor GetIP is not under
src (it lives in the libmachine dependency); the spec says GetURL
"requires a resolved network address; fails ... if none is set (VM never
successfully started)". -/
def GetIP (d : Driver) : Except String String :=
  if d.ipAddress = "" then Except.error "IP address is not set"
  else Except.ok d.ipAddress

/-- GetURL from the source: `tcp://<ip>:2376` built from GetIP. -/
def GetURL (d : Driver) : Except String String :=
  match GetIP d with
  | Except.error e => Except.error e
  | Except.ok ip => Except.ok ("tcp://" ++ ip ++ ":2376")

/-- GetSSHHostname from the source: returns IPAddress with a nil error. -/
def GetSSHHostname (d : Driver) : String × Option String :=
  (d.ipAddress, none)

/-! ## The machine state file and the OS process table -/

/-- What reading and JSON-decoding the hyperkit.json machine file can
yield: the file cannot be opened, it cannot be decoded, or it decodes to
a record carrying a Pid field. -/
inductive PidFile where
  | absent
  | undecodable
  | decoded (pid : Int)
  deriving DecidableEq, Repr

/-- getPid from the source: 0 when the file cannot be opened or decoded,
otherwise the decoded Pid field. -/
def getPid : PidFile → Int
  | PidFile.absent => 0
  | PidFile.undecodable => 0
  | PidFile.decoded pid => pid

/-- The OS environment the process-lifecycle code runs against:
the machine state file, os.FindProcess (which on Unix never fails but
whose error branch the source checks), and the kill(2) syscall table
(`none` means success, `some msg` the OS error for that pid/signal). -/
structure OSEnv where
  pidFile : PidFile
  findProcess : Int → Except String Unit
  kill : Int → Int → Option String

/-- Go's os.Process.Signal: a pid of 0 is rejected with
"os: process not initialized" before any syscall; otherwise kill(2) is
invoked.  Returns the error and the list of OS-level kill calls made. -/
def procSignal (env : OSEnv) (pid sig : Int) : Option String × List (Int × Int) :=
  if pid = 0 then (some "os: process not initialized", [])
  else (env.kill pid sig, [(pid, sig)])

/-- GetState from the source: pid 0 means Stopped; a FindProcess error
is surfaced as Error; any error from the zero-signal probe yields
Stopped; a successful probe yields Running. -/
def GetState (env : OSEnv) : MachineState × Option String :=
  let pid := getPid env.pidFile
  if pid = 0 then (MachineState.stopped, none)
  else
    match env.findProcess pid with
    | Except.error e => (MachineState.error, some e)
    | Except.ok _ =>
      match (procSignal env pid 0).1 with
      | some _ => (MachineState.stopped, none)
      | none => (MachineState.running, none)

/-- sendSignal from the source: resolve the pid from the machine file,
FindProcess it, then Signal the found process.  Returns the error and
the OS-level kill calls made. -/
def sendSignal (env : OSEnv) (s : Int) : Option String × List (Int × Int) :=
  let pid := getPid env.pidFile
  match env.findProcess pid with
  | Except.error e => (some e, [])
  | Except.ok _ => procSignal env pid s

def SIGTERM : Int := 15

def SIGKILL : Int := 9

/-- Stop from the source: sendSignal(SIGTERM). -/
def Stop (env : OSEnv) : Option String × List (Int × Int) :=
  sendSignal env SIGTERM

/-- Kill from the source: sendSignal(SIGKILL). -/
def Kill (env : OSEnv) : Option String × List (Int × Int) :=
  sendSignal env SIGKILL

/-- Remove from the source: read the state (logging on a probe error or
an Error state), call Stop only when the state is Running, propagate
only a Stop failure.  The Bool records whether Stop was called. -/
def Remove (env : OSEnv) : Option String × Bool :=
  let s := (GetState env).1
  if s = MachineState.running then ((Stop env).1, true)
  else (none, false)

/-! ## Network identity: MAC derivation and normalization -/

/-- The run of leading zero characters of a group that the
normalization strips: a '0' is stripped while another character
follows it. -/
def leadingZeros : List Char → List Char
  | [] => []
  | c :: cs => if c = '0' ∧ cs ≠ [] then c :: leadingZeros cs else []

/-- Strip the insignificant leading zero characters of a group,
keeping at least one character. -/
def stripLeadingZeros : List Char → List Char
  | [] => []
  | c :: cs => if c = '0' ∧ cs ≠ [] then stripLeadingZeros cs else c :: cs

/-- Modelled from the spec: trimMacAddress is not under src (the Start
source calls it, declared elsewhere in the repository); the spec
describes it as "a normalization step that strips any insignificant
leading zero components", applied per colon-separated byte group of the
address.  Each group has its insignificant leading zeros stripped. -/
def trimGroup (s : String) : String :=
  String.mk (stripLeadingZeros s.data)

/-- The normalization over a whole colon-separated address. -/
def trimMacAddress (mac : String) : String :=
  String.intercalate ":" ((mac.splitOn ":").map trimGroup)

/-- The address derivation used by Start: the platform convention
mapping the uuid to a raw link-layer address (the external vmnet
collaborator, here a function parameter), followed by trimMacAddress. -/
def deriveAddress (getMAC : String → String) (uuid : String) : String :=
  trimMacAddress (getMAC uuid)

/-- A Bool check that a group carries no insignificant leading zero:
it is empty, a single character, or does not begin with '0'. -/
def noLeadingZeroChars : List Char → Bool
  | [] => true
  | c :: cs => (c != '0') || cs.isEmpty

/-- A Bool check that a normalized group arises from the original by
stripping a run of leading '0' characters. -/
def groupNormalized (g : String) : Bool :=
  (leadingZeros g.data ++ (trimGroup g).data == g.data)
    && (leadingZeros g.data).all (fun c => c == '0')
    && noLeadingZeroChars (trimGroup g).data

/-! ## Start: disk provisioning, hypervisor launch, IP resolution -/

/-- The observable side effects Start can perform, in order. -/
inductive Event where
  | createDiskImage (sshKeyPath diskPath : String) (size : Int)
  | fixPermissions (path : String)
  | hyperkitStart (cmdline : String)
  | lookupIP (mac : String)
  | wait
  deriving DecidableEq, Repr

def isLookup : Event → Bool
  | Event.lookupIP _ => true
  | _ => false

def isWait : Event → Bool
  | Event.wait => true
  | _ => false

def isProvision : Event → Bool
  | Event.createDiskImage _ _ _ => true
  | Event.fixPermissions _ => true
  | _ => false

def countLookups (evs : List Event) : Nat := List.countP isLookup evs

def countWaits (evs : List Event) : Nat := List.countP isWait evs

/-- The collaborators Start runs against: the os.Stat disk-image check,
the createDiskImage and fixPermissions helpers (declared elsewhere in
the repository; only their success or failure matters here), the
hyperkit library constructor and process launch, the generated uuid,
the vmnet MAC derivation, and the per-attempt DHCP lease lookup
(`none` when no lease is recorded yet at that attempt). -/
structure StartEnv where
  diskExists : Bool
  createDisk : Except String Unit
  fixPerms : Except String Unit
  hyperkitNew : Except String Unit
  uuid : String
  getMAC : String → Except String String
  hStart : Except String Unit
  lookup : Nat → Option String

/-- The public SSH key path: GetSSHKeyPath() + ".pub", with the
libmachine default key location id_rsa under the machine directory. -/
def publicSSHKeyPath (d : Driver) : String :=
  d.resolveStorePath "id_rsa" ++ ".pub"

/-- The raw disk image path: filepath.Join(ResolveStorePath("."),
MachineName + ".rawdisk"). -/
def diskPath (d : Driver) : String :=
  d.resolveStorePath "." ++ "/" ++ d.machineName ++ ".rawdisk"

/-- Overwrite only the IPAddress field, as the getIP closure in Start
does on every attempt (on a failed lookup the zero value "" is
assigned together with the error). -/
def setIP (d : Driver) (ip : String) : Driver :=
  ⟨ip, d.machineName, d.sshUser, d.storePath, d.boot2DockerURL,
    d.diskSize, d.cpu, d.memory, d.cmdline⟩

def ipNotFoundMsg : String := "IP address never found in dhcp leases file"

/-- Modelled from the spec: the retry combinator RetryAfter is not
under src (it lives in pkg/util of the repository); the spec says the
IP-resolution loop polls the lease lookup "up to maxAttempts times,
sleeping interval between attempts", performing "exactly k lookups with
k−1 intervening waits" when the k-th attempt succeeds and failing "only
after exactly maxAttempts lookups" otherwise.  `i` is the current
attempt index, the fuel is the remaining attempt budget. -/
def startRetry (mac : String) (lookup : Nat → Option String) :
    Nat → Nat → Driver → Driver × List Event × Option String
  | _, 0, d => (d, [], some ipNotFoundMsg)
  | i, n + 1, d =>
    match lookup i with
    | some ip => (setIP d ip, [Event.lookupIP mac], none)
    | none =>
      if n = 0 then (setIP d "", [Event.lookupIP mac], some ipNotFoundMsg)
      else
        let r := startRetry mac lookup (i + 1) n (setIP d "")
        (r.1, Event.lookupIP mac :: Event.wait :: r.2.1, r.2.2)

/-- The disk-provisioning phase of Start: when os.Stat reports the
rawdisk missing, createDiskImage with the public key path, the disk
path and the configured size, then fixPermissions on the store
directory; either failure aborts. -/
def provisionPhase (d : Driver) (env : StartEnv) : List Event × Option String :=
  if env.diskExists then ([], none)
  else
    match env.createDisk with
    | Except.error e =>
      ([Event.createDiskImage (publicSSHKeyPath d) (diskPath d) d.diskSize], some e)
    | Except.ok _ =>
      match env.fixPerms with
      | Except.error e =>
        ([Event.createDiskImage (publicSSHKeyPath d) (diskPath d) d.diskSize,
          Event.fixPermissions (d.resolveStorePath ".")], some e)
      | Except.ok _ =>
        ([Event.createDiskImage (publicSSHKeyPath d) (diskPath d) d.diskSize,
          Event.fixPermissions (d.resolveStorePath ".")], none)

/-- The launch phase of Start: hyperkit.New, derive the MAC from the
generated uuid and normalize it, h.Start(cmdline), then the bounded
IP-resolution retry (30 attempts, 2-second interval). -/
def launchPhase (d : Driver) (env : StartEnv) : Driver × List Event × Option String :=
  match env.hyperkitNew with
  | Except.error e => (d, [], some e)
  | Except.ok _ =>
    match env.getMAC env.uuid with
    | Except.error e => (d, [], some e)
    | Except.ok rawMac =>
      match env.hStart with
      | Except.error e => (d, [Event.hyperkitStart d.cmdline], some e)
      | Except.ok _ =>
        let r := startRetry (trimMacAddress rawMac) env.lookup 0 30 d
        (r.1, Event.hyperkitStart d.cmdline :: r.2.1, r.2.2)

/-- Start from the source: provision the disk image when missing, then
launch the hypervisor and resolve the IP.  Returns the driver after the
call, the events performed, and the error (`none` on success). -/
def Start (d : Driver) (env : StartEnv) : Driver × List Event × Option String :=
  match (provisionPhase d env).2 with
  | some e => (d, (provisionPhase d env).1, some e)
  | none =>
    let r := launchPhase d env
    (r.1, (provisionPhase d env).1 ++ r.2.1, r.2.2)

/-- The event trace of the retry loop when the lookup first succeeds
after k failed attempts (k lookup/wait pairs, then the final lookup). -/
def retryEvents (mac : String) : Nat → List Event
  | 0 => [Event.lookupIP mac]
  | k + 1 => Event.lookupIP mac :: Event.wait :: retryEvents mac k

/-- All configuration fields of two drivers agree (everything except
the resolved IPAddress). -/
def sameConfig (d e : Driver) : Prop :=
  e.machineName = d.machineName ∧ e.sshUser = d.sshUser ∧
  e.storePath = d.storePath ∧ e.boot2DockerURL = d.boot2DockerURL ∧
  e.diskSize = d.diskSize ∧ e.cpu = d.cpu ∧ e.memory = d.memory ∧
  e.cmdline = d.cmdline

/-! ## Concrete environments used to evaluate the claims -/

/-- A pid file naming a live pid whose zero-signal probe is denied. -/
def envPermDenied : OSEnv :=
  ⟨PidFile.decoded 42, fun _ => Except.ok (), fun _ _ => some "operation not permitted"⟩

/-- A pid file naming a pid whose probe and signals succeed. -/
def envLive : OSEnv :=
  ⟨PidFile.decoded 7, fun _ => Except.ok (), fun _ _ => none⟩

/-- No pid file at all: the VM is Stopped. -/
def envNoPidFile : OSEnv :=
  ⟨PidFile.absent, fun _ => Except.ok (), fun _ _ => none⟩

/-- A pid file that does not decode: the VM is Stopped. -/
def envUndecodable : OSEnv :=
  ⟨PidFile.undecodable, fun _ => Except.ok (), fun _ _ => none⟩

/-- A pid file naming a pid whose process-handle lookup fails. -/
def envProbeErr : OSEnv :=
  ⟨PidFile.decoded 5, fun _ => Except.error "probe failed", fun _ _ => none⟩

/-- A driver with a resolved address. -/
def dC8 : Driver :=
  ⟨"192.168.64.2", "minikube", "docker", "/store", "", 20000, 2, 2048, "loglevel=3"⟩

/-- A concrete MAC-from-UUID convention with leading zeros. -/
def macOfUuidC4 : String → String := fun _ => "0a:00:1b:2f:00:03"

/-- A fresh driver configuration not yet started. -/
def dStart : Driver :=
  ⟨"", "minikube", "docker", "/store", "http://iso", 20000, 2, 2048, "loglevel=3"⟩

/-- A Start environment whose disk image already exists, whose
collaborators all succeed, and whose lease lookup answers at once. -/
def envC3 : StartEnv :=
  ⟨true, Except.ok (), Except.ok (), Except.ok (), "uuid-1",
    fun _ => Except.ok "0a:12:34:56:78:9a", Except.ok (),
    fun _ => some "192.168.64.3"⟩

/-- A Start environment whose disk image already exists and whose
lease lookup never answers. -/
def envC5 : StartEnv :=
  ⟨true, Except.ok (), Except.ok (), Except.ok (), "uuid-2",
    fun _ => Except.ok "0a:12:34:56:78:9a", Except.ok (),
    fun _ => none⟩

end Hyperkit

namespace Hyperkit

/-! ## Theorems -/

/-- Auxiliary: GetState carries a non-nil error only in the Error
branch coming from FindProcess. -/
theorem GetState_error_or_none (env : OSEnv) :
    (GetState env).1 = MachineState.error ∨ (GetState env).2 = none := by
  simp only [GetState]
  split
  · exact Or.inr rfl
  · split
    · exact Or.inl rfl
    · split
      · exact Or.inr rfl
      · exact Or.inr rfl

/-- C1 (amended): GetState returns Stopped when the pid resolves to 0;
when the pid is nonzero, Error (with the error surfaced) exactly when
the process-handle lookup fails; Stopped whenever the zero-signal
liveness probe fails for ANY reason — a probe failure such as
permission denied is silently mapped to Stopped, not Error; and Running
when the probe succeeds. -/
theorem C1_GetState_classification (env : OSEnv) :
    (getPid env.pidFile = 0 → GetState env = (MachineState.stopped, none)) ∧
    (∀ e, getPid env.pidFile ≠ 0 →
      env.findProcess (getPid env.pidFile) = Except.error e →
      GetState env = (MachineState.error, some e)) ∧
    (∀ e, getPid env.pidFile ≠ 0 →
      env.findProcess (getPid env.pidFile) = Except.ok () →
      env.kill (getPid env.pidFile) 0 = some e →
      GetState env = (MachineState.stopped, none)) ∧
    (getPid env.pidFile ≠ 0 →
      env.findProcess (getPid env.pidFile) = Except.ok () →
      env.kill (getPid env.pidFile) 0 = none →
      GetState env = (MachineState.running, none)) := by
  refine ⟨?_, ?_, ?_, ?_⟩ <;> intros <;>
    simp_all [GetState, procSignal]

/-- C1 witness: with a decodable pid file naming pid 7 and a process
table where the probe succeeds, GetState reports Running. -/
theorem C1_witness : GetState envLive = (MachineState.running, none) :=
  (C1_GetState_classification envLive).2.2.2 (by decide) rfl rfl

/-- C1 counterexample: a live pid whose zero-signal probe fails with
"operation not permitted" (not a "no such process" error) is reported
as Stopped with a nil error, not as Error — refuting the claim that a
non-ESRCH probe failure is surfaced as Error. -/
theorem C1_counterexample :
    GetState envPermDenied = (MachineState.stopped, none) ∧
    (GetState envPermDenied).1 ≠ MachineState.error := by
  refine ⟨rfl, ?_⟩
  intro h
  simp [GetState, envPermDenied, procSignal, getPid] at h

/-- C2 (amended): when the persisted pid resolves to 0, Stop and Kill
(sendSignal) return the error "os: process not initialized" — not
success — and make no OS-level signal call; when the pid is nonzero but
no live process bears it, the OS-level kill IS invoked and its "no such
process" error is returned. -/
theorem C2_sendSignal_stopped (env : OSEnv) (s : Int) :
    (getPid env.pidFile = 0 → env.findProcess 0 = Except.ok () →
      sendSignal env s = (some "os: process not initialized", [])) ∧
    (∀ pid, getPid env.pidFile = pid → pid ≠ 0 →
      env.findProcess pid = Except.ok () →
      env.kill pid s = some "no such process" →
      sendSignal env s = (some "no such process", [(pid, s)])) := by
  constructor
  · intro h hf
    simp [sendSignal, h, hf, procSignal]
  · intro pid hp hne hf hk
    simp [sendSignal, hp, hf, procSignal, hne, hk]

/-- C2 witness: with an undecodable pid file (pid 0), sendSignal with
SIGKILL errors without any OS-level kill call. -/
theorem C2_witness :
    sendSignal envUndecodable SIGKILL = (some "os: process not initialized", []) :=
  (C2_sendSignal_stopped envUndecodable SIGKILL).1 rfl rfl

/-- C2 counterexample: with no pid file (the VM Stopped), Stop and Kill
both return an error, refuting the claim that they return success. -/
theorem C2_counterexample :
    (Kill envNoPidFile).1 = some "os: process not initialized" ∧
    (Stop envNoPidFile).1 = some "os: process not initialized" ∧
    (Kill envNoPidFile).2 = [] := by
  refine ⟨rfl, rfl, rfl⟩

/-- Stripping splits a group into its stripped leading zeros and the
remainder. -/
theorem leadingZeros_append_strip (l : List Char) :
    leadingZeros l ++ stripLeadingZeros l = l := by
  induction l with
  | nil => rfl
  | cons c cs ih =>
    by_cases h : c = '0' ∧ cs ≠ []
    · simp [leadingZeros, stripLeadingZeros, h, ih]
    · simp [leadingZeros, stripLeadingZeros, h]

/-- The stripped group never begins with an insignificant zero. -/
theorem noLeadingZeroChars_strip (l : List Char) :
    noLeadingZeroChars (stripLeadingZeros l) = true := by
  induction l with
  | nil => rfl
  | cons c cs ih =>
    by_cases h : c = '0' ∧ cs ≠ []
    · simp only [stripLeadingZeros, if_pos h]
      exact ih
    · simp only [stripLeadingZeros, if_neg h]
      rcases not_and_or.mp h with hc | hcs
      · simp [noLeadingZeroChars, hc]
      · simp [noLeadingZeroChars, not_not.mp hcs]

/-- Everything the normalization strips is a '0' character. -/
theorem leadingZeros_all_zero (l : List Char) :
    (leadingZeros l).all (fun c => c == '0') = true := by
  induction l with
  | nil => rfl
  | cons c cs ih =>
    by_cases h : c = '0' ∧ cs ≠ []
    · simp [leadingZeros, h, ih]
    · simp [leadingZeros, h]

/-- Every group is correctly normalized: the output is the input with
a run of leading '0' characters removed and no insignificant leading
zero remains. -/
theorem groupNormalized_true (g : String) : groupNormalized g = true := by
  simp [groupNormalized, trimGroup, leadingZeros_append_strip,
    noLeadingZeroChars_strip, leadingZeros_all_zero]

/-- C4: the address derivation used by Start (the platform MAC-from-
UUID convention followed by trimMacAddress) is pure and deterministic:
equal uuids give identical normalized addresses, the result is exactly
the per-group normalization of the raw address, and every group of the
raw address is normalized by stripping its insignificant leading zero
characters. -/
theorem C4_deriveAddress_pure (getMAC : String → String) (u v : String)
    (h : u = v) :
    deriveAddress getMAC u = deriveAddress getMAC v ∧
    deriveAddress getMAC u =
      String.intercalate ":" (((getMAC u).splitOn ":").map trimGroup) ∧
    ((getMAC u).splitOn ":").all groupNormalized = true := by
  refine ⟨by rw [h], rfl, ?_⟩
  rw [List.all_eq_true]
  intro g hg
  exact groupNormalized_true g

/-- C6 (amended): DriverName returns "hyperkit" on every call, but
GetCreateFlags returns the empty (nil) flag list — it enumerates no
configuration options. -/
theorem C6_name_and_flags (d : Driver) :
    DriverName d = "hyperkit" ∧ GetCreateFlags d = [] :=
  ⟨rfl, rfl⟩

/-- C6 counterexample: GetCreateFlags on a freshly constructed driver
is the empty list, refuting the claimed non-empty enumeration of disk
size, CPU count, memory size, boot-image URL and kernel command line. -/
theorem C6_counterexample :
    GetCreateFlags (NewDriver "minikube" "/store") = [] ∧
    DriverName (NewDriver "minikube" "/store") = "hyperkit" :=
  ⟨rfl, rfl⟩

/-- C7: Remove returns success without calling Stop whenever the state
probe errored or reported Error; it calls Stop exactly when the probed
state is Running, and then propagates only Stop's result. -/
theorem C7_Remove_best_effort (env : OSEnv) :
    ((GetState env).2 ≠ none ∨ (GetState env).1 = MachineState.error →
      Remove env = (none, false)) ∧
    ((Remove env).2 = true ↔ (GetState env).1 = MachineState.running) ∧
    ((GetState env).1 = MachineState.running →
      Remove env = ((Stop env).1, true)) := by
  refine ⟨?_, ?_, ?_⟩
  · intro h
    have hs : (GetState env).1 ≠ MachineState.running := by
      rcases h with h | h
      · rcases GetState_error_or_none env with he | hn
        · rw [he]; simp
        · exact absurd hn h
      · rw [h]; simp
    simp [Remove, hs]
  · simp only [Remove]
    split
    · simp [*]
    · simp [*]
  · intro h
    simp [Remove, h]

/-- C7 witness: when the process-handle lookup fails (state probe
error, state Error), Remove still returns success without stopping. -/
theorem C7_witness : Remove envProbeErr = (none, false) :=
  (C7_Remove_best_effort envProbeErr).1 (Or.inr rfl)

/-- C8: GetURL fails when no address has been resolved on the driver,
and otherwise returns exactly "tcp://<resolved-ip>:2376" built from the
stored address; it never returns a URL while the address is unset. -/
theorem C8_GetURL_requires_ip (d : Driver) :
    (d.ipAddress = "" → GetURL d = Except.error "IP address is not set") ∧
    (d.ipAddress ≠ "" →
      GetURL d = Except.ok ("tcp://" ++ d.ipAddress ++ ":2376")) := by
  constructor
  · intro h
    simp [GetURL, GetIP, h]
  · intro h
    simp [GetURL, GetIP, h]

/-- C8 witness: a driver holding 192.168.64.2 yields the docker URL. -/
theorem C8_witness : GetURL dC8 = Except.ok "tcp://192.168.64.2:2376" :=
  (C8_GetURL_requires_ip dC8).2 (by decide)

/-- C4 witness: a concrete convention with zero-padded groups, applied
twice to the same uuid. -/
theorem C4_witness :
    deriveAddress macOfUuidC4 "uuid-1" = deriveAddress macOfUuidC4 "uuid-1" ∧
    deriveAddress macOfUuidC4 "uuid-1" =
      String.intercalate ":"
        (((macOfUuidC4 "uuid-1").splitOn ":").map trimGroup) ∧
    ((macOfUuidC4 "uuid-1").splitOn ":").all groupNormalized = true :=
  C4_deriveAddress_pure macOfUuidC4 "uuid-1" "uuid-1" rfl

/-- Overwriting the IPAddress twice keeps only the last write. -/
theorem setIP_setIP (d : Driver) (a b : String) :
    setIP (setIP d a) b = setIP d b := rfl

/-- The retry loop when the lookup first succeeds after k failures
(k+1-th attempt): it stores the resolved address and traces k
lookup/wait pairs then the final lookup. -/
theorem startRetry_success (mac : String) (lookup : Nat → Option String)
    (ip : String) :
    ∀ (k i n : Nat) (d : Driver), k < n →
      (∀ j, j < k → lookup (i + j) = none) → lookup (i + k) = some ip →
      startRetry mac lookup i n d = (setIP d ip, retryEvents mac k, none) := by
  intro k
  induction k with
  | zero =>
    intro i n d hn hfail hs
    cases n with
    | zero => omega
    | succ m =>
      have hs' : lookup i = some ip := by simpa using hs
      simp [startRetry, hs', retryEvents]
  | succ k ih =>
    intro i n d hn hfail hs
    cases n with
    | zero => omega
    | succ m =>
      have h0 : lookup i = none := by simpa using hfail 0 (by omega)
      have hmz : ¬ (m = 0) := by omega
      have hrec := ih (i + 1) m (setIP d "") (by omega)
        (fun j hj => by
          have heq : i + 1 + j = i + (j + 1) := by omega
          rw [heq]
          exact hfail (j + 1) (by omega))
        (by
          have heq : i + 1 + k = i + (k + 1) := by omega
          rw [heq]
          exact hs)
      simp [startRetry, h0, hmz, hrec, setIP_setIP, retryEvents]

/-- The retry loop when the lookup never succeeds: with a budget of
m+1 attempts it fails with the dhcp-lease error, leaving the stored
address cleared, after m+1 lookups and m waits. -/
theorem startRetry_exhaust (mac : String) (lookup : Nat → Option String)
    (hfail : ∀ j, lookup j = none) :
    ∀ (n : Nat), 1 ≤ n → ∀ (i : Nat) (d : Driver),
      startRetry mac lookup i n d =
        (setIP d "", retryEvents mac (n - 1), some ipNotFoundMsg) := by
  intro n
  induction n with
  | zero => omega
  | succ n ih =>
    intro hn1 i d
    by_cases hn : n = 0
    · subst hn
      simp [startRetry, hfail i, retryEvents]
    · simp only [startRetry, hfail i]
      rw [if_neg hn, ih (by omega) (i + 1) (setIP d "")]
      obtain ⟨p, rfl⟩ : ∃ p, n = p + 1 := ⟨n - 1, by omega⟩
      simp [retryEvents, setIP_setIP]

/-- The success trace of the retry loop holds k+1 lookups. -/
theorem countLookups_retryEvents (mac : String) (k : Nat) :
    countLookups (retryEvents mac k) = k + 1 := by
  induction k with
  | zero => rfl
  | succ k ih =>
    simp [retryEvents, countLookups, List.countP_cons, isLookup, isWait]
      at ih ⊢
    omega

/-- The success trace of the retry loop holds k waits. -/
theorem countWaits_retryEvents (mac : String) (k : Nat) :
    countWaits (retryEvents mac k) = k := by
  induction k with
  | zero => rfl
  | succ k ih =>
    simp [retryEvents, countWaits, List.countP_cons, isLookup, isWait]
      at ih ⊢
    omega

theorem countLookups_append (a b : List Event) :
    countLookups (a ++ b) = countLookups a + countLookups b :=
  List.countP_append isLookup a b

theorem countWaits_append (a b : List Event) :
    countWaits (a ++ b) = countWaits a + countWaits b :=
  List.countP_append isWait a b

theorem countLookups_consStart (cmd : String) (evs : List Event) :
    countLookups (Event.hyperkitStart cmd :: evs) = countLookups evs := by
  simp [countLookups, List.countP_cons, isLookup]

theorem countWaits_consStart (cmd : String) (evs : List Event) :
    countWaits (Event.hyperkitStart cmd :: evs) = countWaits evs := by
  simp [countWaits, List.countP_cons, isWait]

/-- The disk-provisioning phase never performs lookups or waits. -/
theorem provisionPhase_no_lookup (d : Driver) (env : StartEnv) :
    countLookups (provisionPhase d env).1 = 0 ∧
    countWaits (provisionPhase d env).1 = 0 := by
  unfold provisionPhase
  by_cases hd : env.diskExists
  · simp [hd, countLookups, countWaits]
  · cases hc : env.createDisk with
    | error e => simp [hd, hc, countLookups, countWaits, isLookup, isWait]
    | ok u =>
      cases hf : env.fixPerms with
      | error e =>
        simp [hd, hc, hf, countLookups, countWaits, isLookup, isWait]
      | ok v =>
        simp [hd, hc, hf, countLookups, countWaits, isLookup, isWait]

/-- The disk-provisioning phase succeeds when the image already exists
or when both provisioning helpers succeed. -/
theorem provisionPhase_snd_none (d : Driver) (env : StartEnv)
    (hdisk : env.diskExists = true ∨
      (env.createDisk = Except.ok () ∧ env.fixPerms = Except.ok ())) :
    (provisionPhase d env).2 = none := by
  rcases hdisk with hd | ⟨hc, hf⟩
  · simp [provisionPhase, hd]
  · by_cases hd : env.diskExists
    · simp [provisionPhase, hd]
    · simp [provisionPhase, hd, hc, hf]

/-- Start after a successful provisioning phase. -/
theorem Start_eq_of_provision_ok (d : Driver) (env : StartEnv)
    (h : (provisionPhase d env).2 = none) :
    Start d env = ((launchPhase d env).1,
      (provisionPhase d env).1 ++ (launchPhase d env).2.1,
      (launchPhase d env).2.2) := by
  simp only [Start, h]

/-- The launch phase when the hypervisor constructor, the MAC
derivation and the process launch all succeed. -/
theorem launchPhase_ok (d : Driver) (env : StartEnv) (rawMac : String)
    (hnew : env.hyperkitNew = Except.ok ())
    (hmac : env.getMAC env.uuid = Except.ok rawMac)
    (hstart : env.hStart = Except.ok ()) :
    launchPhase d env =
      ((startRetry (trimMacAddress rawMac) env.lookup 0 30 d).1,
        Event.hyperkitStart d.cmdline ::
          (startRetry (trimMacAddress rawMac) env.lookup 0 30 d).2.1,
        (startRetry (trimMacAddress rawMac) env.lookup 0 30 d).2.2) := by
  simp [launchPhase, hnew, hmac, hstart]

/-- C3: in Start's IP-resolution phase, a lookup that first succeeds on
attempt k+1 ≤ 30 makes Start succeed after exactly k+1 lookups with k
intervening waits, storing the resolved address on the driver; a lookup
that never succeeds makes Start fail with the dhcp-lease error only
after exactly 30 lookups — intermediate failures are never escalated. -/
theorem C3_Start_ip_retry (d : Driver) (env : StartEnv) (rawMac : String)
    (hdisk : env.diskExists = true ∨
      (env.createDisk = Except.ok () ∧ env.fixPerms = Except.ok ()))
    (hnew : env.hyperkitNew = Except.ok ())
    (hmac : env.getMAC env.uuid = Except.ok rawMac)
    (hstart : env.hStart = Except.ok ()) :
    (∀ k ip, k < 30 → (∀ j, j < k → env.lookup j = none) →
      env.lookup k = some ip →
      (Start d env).2.2 = none ∧
      countLookups (Start d env).2.1 = k + 1 ∧
      countWaits (Start d env).2.1 = k ∧
      (Start d env).1.ipAddress = ip) ∧
    ((∀ j, env.lookup j = none) →
      (Start d env).2.2 = some ipNotFoundMsg ∧
      countLookups (Start d env).2.1 = 30) := by
  have hpn := provisionPhase_snd_none d env hdisk
  have hplw := provisionPhase_no_lookup d env
  have hlp := launchPhase_ok d env rawMac hnew hmac hstart
  have hS := Start_eq_of_provision_ok d env hpn
  constructor
  · intro k ip hk hfail hs
    have hr := startRetry_success (trimMacAddress rawMac) env.lookup ip k 0 30
      d hk (fun j hj => by simpa using hfail j hj) (by simpa using hs)
    rw [hS, hlp, hr]
    refine ⟨rfl, ?_, ?_, rfl⟩
    · simp [countLookups_append, countLookups_consStart, hplw.1,
        countLookups_retryEvents]
    · simp [countWaits_append, countWaits_consStart, hplw.2,
        countWaits_retryEvents]
  · intro hf
    have hr := startRetry_exhaust (trimMacAddress rawMac) env.lookup hf 30
      (by omega) 0 d
    rw [hS, hlp, hr]
    refine ⟨rfl, ?_⟩
    simp [countLookups_append, countLookups_consStart, hplw.1,
      countLookups_retryEvents]

/-- C3 witness: with the disk image in place, all collaborators
succeeding and a lease recorded at once, Start succeeds after one
lookup and no wait and stores the address. -/
theorem C3_witness :
    (Start dStart envC3).2.2 = none ∧
    countLookups (Start dStart envC3).2.1 = 0 + 1 ∧
    countWaits (Start dStart envC3).2.1 = 0 ∧
    (Start dStart envC3).1.ipAddress = "192.168.64.3" :=
  (C3_Start_ip_retry dStart envC3 "0a:12:34:56:78:9a" (Or.inl rfl) rfl rfl
    rfl).1 0 "192.168.64.3" (by omega)
    (fun j hj => absurd hj (Nat.not_lt_zero j)) rfl

/-- The retry loop never provisions the disk. -/
theorem startRetry_no_provision (mac : String)
    (lookup : Nat → Option String) :
    ∀ (n i : Nat) (d : Driver),
      List.countP isProvision (startRetry mac lookup i n d).2.1 = 0 := by
  intro n
  induction n with
  | zero => intro i d; rfl
  | succ n ih =>
    intro i d
    rcases hl : lookup i with _ | ip
    · by_cases hn : n = 0
      · subst hn
        simp [startRetry, hl, isProvision]
      · simp only [startRetry, hl]
        rw [if_neg hn]
        simp [List.countP_cons, isProvision, ih (i + 1) (setIP d "")]
    · simp [startRetry, hl, isProvision]

/-- The launch phase never provisions the disk. -/
theorem launchPhase_no_provision (d : Driver) (env : StartEnv) :
    List.countP isProvision (launchPhase d env).2.1 = 0 := by
  unfold launchPhase
  cases hn2 : env.hyperkitNew with
  | error e => rfl
  | ok u =>
    cases hm : env.getMAC env.uuid with
    | error e => simp [hm]
    | ok rawMac =>
      cases hst : env.hStart with
      | error e => simp [hm, hst, isProvision]
      | ok v =>
        simp [hm, hst, List.countP_cons, isProvision,
          startRetry_no_provision]

/-- Every event of the provisioning phase, when the disk image is
absent. -/
theorem provisionPhase_mem (d : Driver) (env : StartEnv)
    (hd : env.diskExists = false) :
    Event.createDiskImage (publicSSHKeyPath d) (diskPath d) d.diskSize
      ∈ (provisionPhase d env).1 ∧
    (env.createDisk = Except.ok () →
      Event.fixPermissions (d.resolveStorePath ".")
        ∈ (provisionPhase d env).1) := by
  cases hc : env.createDisk with
  | error e => simp [provisionPhase, hd, hc]
  | ok u =>
    cases hf : env.fixPerms with
    | error e => simp [provisionPhase, hd, hc, hf]
    | ok v => simp [provisionPhase, hd, hc, hf]

/-- Start keeps every provisioning-phase event in its trace. -/
theorem mem_Start_of_mem_provision (d : Driver) (env : StartEnv)
    (e : Event) (he : e ∈ (provisionPhase d env).1) :
    e ∈ (Start d env).2.1 := by
  unfold Start
  cases h2 : (provisionPhase d env).2 with
  | some err => simpa using he
  | none =>
    simp only [List.mem_append]
    exact Or.inl he

/-- C5: when the disk image already exists, Start performs no
createDiskImage and no fixPermissions effect; when it does not exist,
Start creates the image at the expected path, sized per the
configuration, and (when creation succeeds) fixes the permissions of
the store directory. -/
theorem C5_Start_disk_idempotent (d : Driver) (env : StartEnv) :
    (env.diskExists = true →
      List.countP isProvision (Start d env).2.1 = 0) ∧
    (env.diskExists = false →
      Event.createDiskImage (publicSSHKeyPath d) (diskPath d) d.diskSize
        ∈ (Start d env).2.1 ∧
      (env.createDisk = Except.ok () →
        Event.fixPermissions (d.resolveStorePath ".")
          ∈ (Start d env).2.1)) := by
  constructor
  · intro hd
    have hp : provisionPhase d env = ([], none) := by
      simp [provisionPhase, hd]
    simp [Start, hp, launchPhase_no_provision]
  · intro hd
    have hmem := provisionPhase_mem d env hd
    exact ⟨mem_Start_of_mem_provision d env _ hmem.1,
      fun hc => mem_Start_of_mem_provision d env _ (hmem.2 hc)⟩

/-- C5 witness: with the disk image present, Start provisions
nothing. -/
theorem C5_witness :
    envC5.diskExists = true ∧
    List.countP isProvision (Start dStart envC5).2.1 = 0 :=
  ⟨rfl, (C5_Start_disk_idempotent dStart envC5).1 rfl⟩

theorem sameConfig_refl (d : Driver) : sameConfig d d :=
  ⟨rfl, rfl, rfl, rfl, rfl, rfl, rfl, rfl⟩

theorem sameConfig_setIP (d : Driver) (ip : String) :
    sameConfig d (setIP d ip) :=
  ⟨rfl, rfl, rfl, rfl, rfl, rfl, rfl, rfl⟩

theorem sameConfig_trans {a b c : Driver} (h1 : sameConfig a b)
    (h2 : sameConfig b c) : sameConfig a c :=
  ⟨h2.1.trans h1.1, h2.2.1.trans h1.2.1, h2.2.2.1.trans h1.2.2.1,
    h2.2.2.2.1.trans h1.2.2.2.1, h2.2.2.2.2.1.trans h1.2.2.2.2.1,
    h2.2.2.2.2.2.1.trans h1.2.2.2.2.2.1,
    h2.2.2.2.2.2.2.1.trans h1.2.2.2.2.2.2.1,
    h2.2.2.2.2.2.2.2.trans h1.2.2.2.2.2.2.2⟩

/-- The retry loop touches no driver field besides IPAddress. -/
theorem startRetry_sameConfig (mac : String)
    (lookup : Nat → Option String) :
    ∀ (n i : Nat) (d : Driver),
      sameConfig d (startRetry mac lookup i n d).1 := by
  intro n
  induction n with
  | zero => intro i d; exact sameConfig_refl d
  | succ n ih =>
    intro i d
    rcases hl : lookup i with _ | ip
    · by_cases hn : n = 0
      · subst hn
        simp only [startRetry, hl, if_true]
        exact sameConfig_setIP d ""
      · simp only [startRetry, hl]
        rw [if_neg hn]
        exact sameConfig_trans (sameConfig_setIP d "")
          (ih (i + 1) (setIP d ""))
    · simp only [startRetry, hl]
      exact sameConfig_setIP d ip

/-- The launch phase touches no driver field besides IPAddress. -/
theorem launchPhase_sameConfig (d : Driver) (env : StartEnv) :
    sameConfig d (launchPhase d env).1 := by
  unfold launchPhase
  cases hn2 : env.hyperkitNew with
  | error e => exact sameConfig_refl d
  | ok u =>
    cases hm : env.getMAC env.uuid with
    | error e => simp only [hm]; exact sameConfig_refl d
    | ok rawMac =>
      cases hst : env.hStart with
      | error e => simp only [hm, hst]; exact sameConfig_refl d
      | ok v =>
        simp only [hm, hst]
        exact startRetry_sameConfig (trimMacAddress rawMac) env.lookup 30 0 d

/-- Start touches no driver field besides IPAddress. -/
theorem Start_sameConfig (d : Driver) (env : StartEnv) :
    sameConfig d (Start d env).1 := by
  unfold Start
  cases h2 : (provisionPhase d env).2 with
  | some err => exact sameConfig_refl d
  | none => exact launchPhase_sameConfig d env

/-- C10: after any Start call, successful or failed, every driver
field other than the resolved IPAddress — DiskSize, CPU, Memory,
Boot2DockerURL, Cmdline, MachineName, StorePath, SSHUser — is
unchanged. -/
theorem C10_Start_frame (d : Driver) (env : StartEnv) :
    (Start d env).1.diskSize = d.diskSize ∧
    (Start d env).1.cpu = d.cpu ∧
    (Start d env).1.memory = d.memory ∧
    (Start d env).1.boot2DockerURL = d.boot2DockerURL ∧
    (Start d env).1.cmdline = d.cmdline ∧
    (Start d env).1.machineName = d.machineName ∧
    (Start d env).1.storePath = d.storePath ∧
    (Start d env).1.sshUser = d.sshUser := by
  have h := Start_sameConfig d env
  exact ⟨h.2.2.2.2.1, h.2.2.2.2.2.1, h.2.2.2.2.2.2.1, h.2.2.2.1,
    h.2.2.2.2.2.2.2, h.1, h.2.2.1, h.2.1⟩

/-- C9: NewDriver ignores both arguments: every call returns the same
driver value, with SSHUser "docker" and empty MachineName/StorePath. -/
theorem C9_NewDriver_ignores_args (hostName storePath : String) :
    NewDriver hostName storePath = NewDriver "" "" ∧
    (NewDriver hostName storePath).sshUser = "docker" ∧
    (NewDriver hostName storePath).machineName = "" ∧
    (NewDriver hostName storePath).storePath = "" :=
  ⟨rfl, rfl, rfl, rfl⟩

end Hyperkit
